import Mathlib

/-!
# Vimeo scope: API client and query orchestration

A shallow embedding of `src/vimeo/api/client.cpp` and `src/vimeo/scope/query.cpp`.

* C++ `std::string` is `String`; `deque<shared_ptr<T>>` is `List T`.
* Calls into libraries that are not part of the repository (base64, URI printing,
  gzip, the JSON reader) are fields of `Env`; the state of the outside world read
  by a call (environment variables, the account provider) is a `Sys`.
* `Json` with `member`, `size`, `elem` and `asString` follows the documented behaviour
  of the jsoncpp `Json::Value` accessors the two files use.
-/

namespace Vimeo

/-! ## JSON values (jsoncpp `Json::Value`) -/

/-- A parsed JSON value. Real numbers are not represented. -/
inductive Json where
  | null
  | bool (b : Bool)
  | num (n : Int)
  | str (s : String)
  | arr (elems : List Json)
  | obj (members : List (String × Json))

namespace Json

/-- The jsoncpp `operator[](const char*)`, const or not: a null value and a missing
member both give null; on a value that is neither null nor an object the library
precondition fails (`none`). -/
def member (v : Json) (key : String) : Option Json :=
  match v with
  | null => some null
  | obj members =>
    match members.lookup key with
    | some x => some x
    | none => some null
  | _ => none

/-- The jsoncpp `size()`: number of elements of an array, number of members of an
object, zero for everything else. -/
def size (v : Json) : Nat :=
  match v with
  | arr elems => elems.length
  | obj members => members.length
  | _ => 0

/-- The jsoncpp `operator[](ArrayIndex)` at an index below `size()`; on a value that is
neither null nor an array the library precondition fails (`none`). -/
def elem (v : Json) (index : Nat) : Option Json :=
  match v with
  | null => some null
  | arr elems =>
    match elems.get? index with
    | some x => some x
    | none => some null
  | _ => none

/-- The jsoncpp `asString()`: null is the empty string, a string is itself, booleans
and integers are printed; arrays and objects are not convertible (`none`). -/
def asString (v : Json) : Option String :=
  match v with
  | null => some ""
  | str s => some s
  | bool b => some (if b then "true" else "false")
  | num n => some (toString n)
  | _ => none

end Json

/-! ## `get_list` (client.cpp 39-47) -/

/-- The `for` loop of `get_list`: `fuel` bounds the number of iterations, `index` is
the loop counter and `results` the deque built so far. -/
def get_list_loop {T : Type} (mk : Json → T) (data : Json) :
    Nat → Nat → List T → Option (List T)
  | 0, _, results => some results
  | fuel + 1, index, results =>
    if index < data.size then
      match data.elem index with
      | some item => get_list_loop mk data fuel (index + 1) (results ++ [mk item])
      | none => none
    else some results

/-- The template `get_list<T>`; `mk` is the constructor `T(const json::Value&)`.
`none` means a jsoncpp precondition failed inside the function. -/
def get_list {T : Type} (mk : Json → T) (root : Json) : Option (List T) :=
  match root.member "data" with
  | none => none
  | some data => get_list_loop mk data data.size 0 []

/-! ## Configuration and its refresh (client.cpp 160-205) -/

/-- Modelled from the spec: the `Config` record of `vimeo/api/config.h`, which is not
among the sources: apiroot, the three credential strings, the accept and user-agent
header values and the authenticated flag. -/
structure Config where
  apiroot : String
  access_token : String
  client_id : String
  client_secret : String
  accept : String
  user_agent : String
  authenticated : Bool
  deriving DecidableEq

/-- One record of `OnlineAccountClient::get_service_statuses()`, with the fields the
client reads. -/
structure ServiceStatus where
  service_authenticated : Bool
  access_token : String
  client_id : String
  client_secret : String
  deriving DecidableEq

/-- What a call observes of the outside world: the process environment and the
statuses a freshly created account client reports. -/
structure Sys where
  getenv : String → Option String
  service_statuses : List ServiceStatus

/-- The `for` loop of `update_config` (lines 187-195), which stops at the first
authenticated status. -/
def scan_statuses : List ServiceStatus → Config → Config
  | [], config_ => config_
  | status :: rest, config_ =>
    if status.service_authenticated then
      { config_ with
        authenticated := true
        access_token := status.access_token
        client_id := status.client_id
        client_secret := status.client_secret }
    else scan_statuses rest config_

/-- The method `Client::Priv::update_config`. -/
def update_config (sys : Sys) (config_ : Config) : Config :=
  let c1 : Config :=
    match sys.getenv "YOUTUBE_SCOPE_APIROOT" with
    | some root => { config_ with apiroot := root }
    | none => config_
  if (sys.getenv "YOUTUBE_SCOPE_IGNORE_ACCOUNTS").isSome then c1
  else
    let c2 := scan_statuses sys.service_statuses c1
    if !c2.authenticated then
      { c2 with access_token := "", client_id := "", client_secret := "" }
    else c2

/-! ## The client state and request construction (client.cpp 51-111) -/

/-- The mutable members of `Client::Priv`. -/
structure Priv where
  config_ : Config
  cancelled_ : Bool
  deriving DecidableEq

/-- The constructor of `Client::Priv`: `cancelled_(false)`. -/
def Priv.new (config_ : Config) : Priv := { config_ := config_, cancelled_ := false }

/-- A `net::Uri` before printing. -/
structure Uri where
  host : String
  path : List String
  query_parameters : List (String × String)
  deriving DecidableEq

/-- Library calls made through `client_` and the decoding libraries. -/
structure Env where
  base64_encode : String → String
  uri_to_string : Uri → String
  gunzip : String → Except Int String
  parse : String → Json

/-- The `http::Request::Configuration` built by `get`: header fields are kept in the
order of the `add` calls. -/
structure Configuration where
  uri : String
  header : List (String × String)
  deriving DecidableEq

/-- The call `configuration.header.add(key, value)`. -/
def Configuration.add (c : Configuration) (key value : String) : Configuration :=
  { c with header := c.header ++ [(key, value)] }

/-- The values carried under a header name. -/
def Configuration.values (c : Configuration) (key : String) : List String :=
  (c.header.filter (fun kv => kv.1 = key)).map Prod.snd

/-- Lines 82-99 of `get`: the request configuration built from the refreshed config. -/
def build_configuration (env : Env) (config_ : Config) (path : List String)
    (parameters : List (String × String)) : Configuration :=
  let uri : Uri := { host := config_.apiroot, path := path, query_parameters := parameters }
  let c0 : Configuration := { uri := env.uri_to_string uri, header := [] }
  let c1 :=
    if config_.access_token ≠ "" then
      c0.add "Authorization" ("bearer " ++ config_.access_token)
    else if config_.client_id ≠ "" ∧ config_.client_secret ≠ "" then
      c0.add "Authorization"
        ("basic " ++ env.base64_encode (config_.client_id ++ ":" ++ config_.client_secret))
    else c0
  let c2 := c1.add "Accept" config_.accept
  let c3 := c2.add "User-Agent" (config_.user_agent ++ " (gzip)")
  c3.add "Accept-Encoding" "gzip"

/-- The method `Client::Priv::get`: refresh the config, then build the request that is
handed to the transport. Returns the new client state and the request. -/
def get (env : Env) (sys : Sys) (p : Priv) (path : List String)
    (parameters : List (String × String)) : Priv × Configuration :=
  let config_ := update_config sys p.config_
  ({ p with config_ := config_ }, build_configuration env config_ path parameters)

/-- The enumeration `http::Request::Progress::Next`. -/
inductive Next where
  | continue_operation
  | abort_operation
  deriving DecidableEq

/-- The method `Client::Priv::progress_report`. -/
def progress_report (p : Priv) : Next :=
  if p.cancelled_ then Next.abort_operation else Next.continue_operation

/-! ## Response handling (client.cpp 113-158) -/

/-- The exception classes the handlers store in the promise: `core::net::Error`,
`boost::iostreams::gzip_error` and `std::domain_error`. -/
inductive Exn where
  | net_error (what : String)
  | gzip_error (error : Int)
  | domain_error (what : String)
  deriving DecidableEq

/-- The state of the promise after a handler has run: a value, an exception, or left
unset because a library precondition failed inside the handler. -/
inductive Resolution (T : Type) where
  | value (v : T)
  | exception (e : Exn)
  | unset

/-- An `http::Response`: numeric status and raw body. -/
structure Response where
  status : Nat
  body : String
  deriving DecidableEq

/-- The constant `http::Status::ok`. -/
def Status.ok : Nat := 200

/-- The `on_error` handler (lines 122-125). -/
def on_error {T : Type} (what : String) : Resolution T :=
  Resolution.exception (Exn.net_error what)

/-- The `on_response` handler (lines 126-153); `func` is the endpoint extraction
function, `none` when a jsoncpp precondition fails inside it. -/
def on_response {T : Type} (env : Env) (func : Json → Option T) (response : Response) :
    Resolution T :=
  let decompressed : Except Int String :=
    if response.body ≠ "" then env.gunzip response.body else Except.ok ""
  match decompressed with
  | Except.error e => Resolution.exception (Exn.gzip_error e)
  | Except.ok text =>
    let root := env.parse text
    if response.status ≠ Status.ok then
      match (root.member "error").bind Json.asString with
      | some what => Resolution.exception (Exn.domain_error what)
      | none => Resolution.unset
    else
      match func root with
      | some v => Resolution.value v
      | none => Resolution.unset

/-- What `async_get` leaves behind: the request handed to the transport and the
extraction function captured by the response handler. -/
structure Pending (T : Type) where
  request : Configuration
  func : Json → Option T

/-- How the transport completes a request: it calls `on_error` or `on_response`. -/
inductive Completion where
  | error (what : String)
  | response (r : Response)

/-- The state of the future of a pending call once the transport has completed it. -/
def Pending.resolve {T : Type} (env : Env) (pending : Pending T) : Completion → Resolution T
  | Completion.error what => on_error what
  | Completion.response r => on_response env pending.func r

/-- The method `Client::Priv::async_get`. -/
def async_get {T : Type} (env : Env) (sys : Sys) (p : Priv) (path : List String)
    (parameters : List (String × String)) (func : Json → Option T) : Priv × Pending T :=
  let r := get env sys p path parameters
  (r.1, { request := r.2, func := func })

/-! ## The public operations (client.cpp 212-247) -/

/-- The operation `Client::videos`. -/
def Client.videos {V : Type} (mk : Json → V) (env : Env) (sys : Sys) (p : Priv)
    (query : String) : Priv × Pending (List V) :=
  async_get env sys p ["videos"] [("query", query)] (get_list mk)

/-- The operation `Client::channels`. -/
def Client.channels {C : Type} (mk : Json → C) (env : Env) (sys : Sys) (p : Priv) :
    Priv × Pending (List C) :=
  async_get env sys p ["channels"]
    [("sort", "followers"), ("filter", "featured"), ("per_page", "10")] (get_list mk)

/-- The operation `Client::channels_videos`. -/
def Client.channels_videos {V : Type} (mk : Json → V) (env : Env) (sys : Sys) (p : Priv)
    (channel : String) : Priv × Pending (List V) :=
  async_get env sys p ["channels", channel, "videos"] [] (get_list mk)

/-- The operation `Client::feed`. -/
def Client.feed {V : Type} (mk : Json → V) (env : Env) (sys : Sys) (p : Priv) :
    Priv × Pending (List V) :=
  async_get env sys p ["me", "feed"] [] (get_list mk)

/-- The operation `Client::cancel`. -/
def Client.cancel (p : Priv) : Priv := { p with cancelled_ := true }

/-- The operation `Client::authenticated`: the new state and the returned flag. -/
def Client.authenticated (sys : Sys) (p : Priv) : Priv × Bool :=
  let config_ := update_config sys p.config_
  ({ p with config_ := config_ }, config_.authenticated)

/-- One operation on a client, as seen in a history of the client. -/
inductive ClientOp where
  | videos (query : String)
  | channels
  | channels_videos (channel : String)
  | feed
  | cancel
  | authenticated
  | progress
  deriving DecidableEq

/-- The effect of one operation on the client state; `sys` is the outside world at the
time of the operation. A progress tick only reads the state. -/
def Priv.step (env : Env) (p : Priv) (sys : Sys) : ClientOp → Priv
  | ClientOp.videos query => (Client.videos id env sys p query).1
  | ClientOp.channels => (Client.channels id env sys p).1
  | ClientOp.channels_videos channel => (Client.channels_videos id env sys p channel).1
  | ClientOp.feed => (Client.feed id env sys p).1
  | ClientOp.cancel => Client.cancel p
  | ClientOp.authenticated => (Client.authenticated sys p).1
  | ClientOp.progress => p

/-- The client state after a history of operations, each with the outside world it ran in. -/
def Priv.run (env : Env) (p : Priv) : List (Sys × ClientOp) → Priv
  | [] => p
  | (sys, op) :: rest => Priv.run env (p.step env sys op) rest

/-! ## Query orchestration (query.cpp) -/

/-- Modelled from the spec: the `Channel` record of `vimeo/api/channel.h`, which is not
among the sources: an id and a name, read through `id()` and `name()`. -/
structure Channel where
  id : String
  name : String
  deriving DecidableEq

/-- Modelled from the spec: the `Video` record of `vimeo/api/video.h`, which is not among
the sources: id, name, description, uri, picture URL and username. -/
structure Video where
  id : String
  name : String
  description : String
  uri : String
  picture : String
  username : String
  deriving DecidableEq

/-- The parts of `sc::CannedQuery` that `run` reads. -/
structure CannedQuery where
  query_string : String
  department_id : String
  deriving DecidableEq

/-- A `sc::Department`: id, label and sub-departments in the order they were added. -/
inductive Department where
  | mk (id label : String) (subdepartments : List Department)

/-- The factory `sc::Department::create(id, query, label)`; the query argument is the
same at every call of `run` and is left out. -/
def Department.create (id label : String) : Department := Department.mk id label []

/-- The method `add_subdepartment`. -/
def Department.add_subdepartment : Department → Department → Department
  | Department.mk id label subs, dept => Department.mk id label (subs ++ [dept])

/-- A `sc::CategorisedResult` with the fields `run` and `add_login_nag` set. -/
structure CategorisedResult where
  category : String
  uri : String
  title : String
  art : String
  description : String
  username : String
  deriving DecidableEq

/-- The client as `run` uses it (its declaration, `client.h`, is not among the
sources): every operation returns its list or throws the exception the response
handlers of `client.cpp` stored for it, and
`authenticated` is the value of `client_.config()->authenticated`, which `run` reads at
lines 127 and 139 with no client call in between. `run` calls each operation at most
once, so one outcome per operation describes the client completely. -/
structure QueryClient where
  channels : Except Exn (List Channel)
  channels_videos : String → Except Exn (List Video)
  feed : Except Exn (List Video)
  videos : String → Except Exn (List Video)
  authenticated : Bool

/-- What `run` does to its collaborators, in order. -/
inductive Event where
  | call_channels
  | call_channels_videos (channel : String)
  | call_feed
  | call_videos (query : String)
  | register_departments (all_depts : Department)
  | register_category (id : String)
  | register_account_login_item
  | push (res : CategorisedResult)

/-- The outcome of `run`: what it did, the exception thrown inside the `try` block, if
any, and the exception that left `run`, if any. -/
structure RunResult where
  events : List Event
  thrown : Option Exn
  propagated : Option Exn

/-- The character class of `boost::algorithm::trim_copy` in the classic locale. -/
def is_space (c : Char) : Bool :=
  c.toNat = 32 || (9 ≤ c.toNat && c.toNat ≤ 13)

/-- The function `boost::algorithm::trim_copy`. -/
def trim_copy (s : String) : String :=
  String.mk ((s.data.dropWhile is_space).reverse.dropWhile is_space).reverse

/-- The function `boost::algorithm::starts_with(input, test)`. -/
def starts_with (input test : String) : Bool :=
  test.data.isPrefixOf input.data

/-- The method `Query::add_login_nag`; the localisation of the title is left out. -/
def add_login_nag (getenv : String → Option String) : List Event :=
  if (getenv "VIMEO_SCOPE_IGNORE_ACCOUNTS").isSome then []
  else
    [Event.register_category "vimeo_login_nag",
     Event.register_account_login_item,
     Event.push
       { category := "vimeo_login_nag", uri := "", title := "Log-in to Vimeo", art := "",
         description := "", username := "" }]

/-- The clause `catch (domain_error &e) {}` of `run`: the exception that leaves `run`
when `e` is thrown inside the `try` block. A `domain_error` is swallowed; no other
class is caught. -/
def catch_domain_error (e : Exn) : Option Exn :=
  match e with
  | Exn.domain_error _ => none
  | other => some other

/-- An exception thrown inside the `try` block of `run` after the given events: the
events are kept and the `catch` clause decides what leaves `run`. -/
def unwind (events : List Event) (e : Exn) : RunResult :=
  { events := events, thrown := some e, propagated := catch_domain_error e }

/-- The result loop of `run` (lines 157-168); `n` counts the video results pushed so
far and `push_ok n res` is what `reply->push(res)` returns. -/
def push_videos (push_ok : Nat → CategorisedResult → Bool) : Nat → List Video → List Event
  | _, [] => []
  | n, video :: rest =>
    let res : CategorisedResult :=
      { category := "vimeo", uri := video.uri, title := video.name, art := video.picture,
        description := video.description, username := video.username }
    Event.push res :: (if push_ok n res then push_videos push_ok (n + 1) rest else [])

/-- Lines 154-168 of `run`: register the result category and push the videos. -/
def emit (push_ok : Nat → CategorisedResult → Bool) (events : List Event)
    (videos : List Video) : RunResult :=
  { events := events ++ [Event.register_category "vimeo"] ++ push_videos push_ok 0 videos
    thrown := none
    propagated := none }

/-- Lines 119-125 of `run`: the root department with one sub-department per channel. -/
def channel_departments (channels : List Channel) : Department :=
  channels.foldl
    (fun all_depts channel =>
      all_depts.add_subdepartment (Department.create channel.id channel.name))
    (Department.create "" "My Feed")

/-- Lines 145-149 and the rest of `run`, once the browse branch has asked for its
videos with the client call `call`, whose outcome is `videos`. -/
def browse_finish (getenv : String → Option String)
    (push_ok : Nat → CategorisedResult → Bool) (all_depts : Department)
    (include_login_nag : Bool) (call : Event) (videos : Except Exn (List Video)) : RunResult :=
  match videos with
  | Except.error e => unwind [Event.call_channels, call] e
  | Except.ok vs =>
    emit push_ok
      ([Event.call_channels, call, Event.register_departments all_depts]
        ++ (if include_login_nag then add_login_nag getenv else []))
      vs

/-- The method `Query::run`. -/
def Query.run (getenv : String → Option String) (client_ : QueryClient)
    (push_ok : Nat → CategorisedResult → Bool) (query : CannedQuery) : RunResult :=
  let query_string := trim_copy query.query_string
  if query_string = "" then
    match client_.channels with
    | Except.error e => unwind [Event.call_channels] e
    | Except.ok channels =>
      let all_depts := channel_departments channels
      let include_login_nag := !client_.authenticated
      if starts_with query.department_id "aggregated:" then
        let dummy := Department.create query.department_id " "
        browse_finish getenv push_ok (all_depts.add_subdepartment dummy) false
          (Event.call_channels_videos "staffpicks") (client_.channels_videos "staffpicks")
      else if query.department_id ≠ "" then
        browse_finish getenv push_ok all_depts include_login_nag
          (Event.call_channels_videos query.department_id)
          (client_.channels_videos query.department_id)
      else if client_.authenticated then
        browse_finish getenv push_ok all_depts include_login_nag
          Event.call_feed client_.feed
      else
        browse_finish getenv push_ok all_depts include_login_nag
          (Event.call_channels_videos "staffpicks") (client_.channels_videos "staffpicks")
  else
    match client_.videos query_string with
    | Except.error e => unwind [Event.call_videos query_string] e
    | Except.ok vs => emit push_ok [Event.call_videos query_string] vs

/-- The client calls among the events of a run, in order. -/
def client_calls : List Event → List Event
  | [] => []
  | Event.call_channels :: rest => Event.call_channels :: client_calls rest
  | Event.call_channels_videos c :: rest => Event.call_channels_videos c :: client_calls rest
  | Event.call_feed :: rest => Event.call_feed :: client_calls rest
  | Event.call_videos q :: rest => Event.call_videos q :: client_calls rest
  | _ :: rest => client_calls rest

/-- Whether the login-nag result was pushed to the reply. -/
def login_nag_shown : List Event → Bool
  | [] => false
  | Event.push res :: rest => res.category = "vimeo_login_nag" || login_nag_shown rest
  | _ :: rest => login_nag_shown rest

/-- The department trees handed to `register_departments`, in order. -/
def registered_departments : List Event → List Department
  | [] => []
  | Event.register_departments d :: rest => d :: registered_departments rest
  | _ :: rest => registered_departments rest

/-- The exception with which the client answers a call of `run`, if that call fails. -/
def QueryClient.failure (client_ : QueryClient) : Event → Option Exn
  | Event.call_channels =>
    match client_.channels with
    | Except.error e => some e
    | Except.ok _ => none
  | Event.call_channels_videos channel =>
    match client_.channels_videos channel with
    | Except.error e => some e
    | Except.ok _ => none
  | Event.call_feed =>
    match client_.feed with
    | Except.error e => some e
    | Except.ok _ => none
  | Event.call_videos query =>
    match client_.videos query with
    | Except.error e => some e
    | Except.ok _ => none
  | _ => none

/-- The exception of a failed client operation, if it failed. -/
def outcome_failure (outcome : Except Exn (List Video)) : Option Exn :=
  match outcome with
  | Except.error e => some e
  | Except.ok _ => none

/-- The video source of browse mode in the words of the specification: staffpicks for
an `aggregated:` department, else the department as a channel, else the feed when
authenticated, else staffpicks. -/
def spec_video_source (department_id : String) (authenticated : Bool) : Event :=
  if starts_with department_id "aggregated:" then Event.call_channels_videos "staffpicks"
  else if department_id ≠ "" then Event.call_channels_videos department_id
  else if authenticated then Event.call_feed
  else Event.call_channels_videos "staffpicks"

/-- The department tree of browse mode in the words of the specification: the root
`My Feed`, one sub-department per channel in order, and a dummy whose name is a single
blank at the department id exactly for an `aggregated:` department. -/
def spec_departments (channels : List Channel) (department_id : String) : Department :=
  Department.mk "" "My Feed"
    (channels.map (fun channel => Department.mk channel.id channel.name []) ++
      (if starts_with department_id "aggregated:" then [Department.mk department_id " " []]
       else []))

/-! ## Stand-ins used to evaluate the model on concrete inputs -/

/-- A stand-in for `gzip_decompressor`: it checks the two magic bytes of a gzip stream
and takes the rest as the payload; anything else is a bad header (error 4). -/
def stub_gunzip (body : String) : Except Int String :=
  match body.data with
  | c1 :: c2 :: rest =>
    if c1.toNat = 0x1f ∧ c2.toNat = 0x8b then Except.ok (String.mk rest) else Except.error 4
  | _ => Except.error 4

/-- A stand-in for `Json::Reader::parse` that knows three documents; every other text
leaves the root null, as a failed parse does. -/
def stub_parse (text : String) : Json :=
  if text = "\x7b\"error\":\"bad\"\x7d" then Json.obj [("error", Json.str "bad")]
  else if text = "\x7b\"data\":[\"a\",\"b\",\"a\"]\x7d" then
    Json.obj [("data", Json.arr [Json.str "a", Json.str "b", Json.str "a"])]
  else if text = "\x7b\x7d" then Json.obj []
  else Json.null

/-- Stand-ins for the library calls. -/
def stub_env : Env :=
  { base64_encode := fun s => "b64<" ++ s ++ ">"
    uri_to_string := fun u => u.host ++ "/" ++ "/".intercalate u.path
    gunzip := stub_gunzip
    parse := stub_parse }

/-- A configuration as it is before the first refresh: no credentials. -/
def fresh_config : Config :=
  { apiroot := "https://api.vimeo.com", access_token := "", client_id := "",
    client_secret := "", accept := "application/json", user_agent := "scope",
    authenticated := false }

/-- An outside world with no environment variable set and the given statuses. -/
def plain_sys (statuses : List ServiceStatus) : Sys :=
  { getenv := fun _ => none, service_statuses := statuses }

/-- An authenticated service status. -/
def logged_in : ServiceStatus :=
  { service_authenticated := true, access_token := "tok", client_id := "id",
    client_secret := "secret" }

/-- A video with the given name. -/
def sample_video (name : String) : Video :=
  { id := "1", name := name, description := "", uri := "https://vimeo.com/1", picture := "",
    username := "staff" }

/-- A client whose operations all succeed: two channels, one video per source. -/
def stub_client (authenticated : Bool) : QueryClient :=
  { channels := Except.ok [{ id := "c1", name := "Music" }, { id := "c2", name := "Sports" }]
    channels_videos := fun channel => Except.ok [sample_video channel]
    feed := Except.ok [sample_video "feed"]
    videos := fun query => Except.ok [sample_video query]
    authenticated := authenticated }

/-- A client whose operations all fail with the given exception. -/
def failing_client (e : Exn) : QueryClient :=
  { channels := Except.error e
    channels_videos := fun _ => Except.error e
    feed := Except.error e
    videos := fun _ => Except.error e
    authenticated := false }

/-- A process environment with no variable set. -/
def no_env : String → Option String := fun _ => none

/-- A reply that accepts every result. -/
def accept_all : Nat → CategorisedResult → Bool := fun _ _ => true

/-! # Theorems -/

/-! ## Request construction -/

theorem values_add (c : Configuration) (key value name : String) :
    (c.add key value).values name = c.values name ++ (if key = name then [value] else []) := by
  unfold Configuration.values Configuration.add
  by_cases h : key = name <;> simp [List.filter_append, List.filter_cons, h]

theorem build_configuration_authorization (env : Env) (config_ : Config) (path : List String)
    (parameters : List (String × String)) :
    (build_configuration env config_ path parameters).values "Authorization" =
      (if config_.access_token ≠ "" then ["bearer " ++ config_.access_token]
      else if config_.client_id ≠ "" ∧ config_.client_secret ≠ "" then
        ["basic " ++ env.base64_encode (config_.client_id ++ ":" ++ config_.client_secret)]
      else []) := by
  have hA : ¬ ("Accept" = "Authorization") := by decide
  have hU : ¬ ("User-Agent" = "Authorization") := by decide
  have hE : ¬ ("Accept-Encoding" = "Authorization") := by decide
  simp only [build_configuration, values_add, if_neg hA, if_neg hU, if_neg hE,
    List.append_nil]
  by_cases h1 : config_.access_token ≠ ""
  · rw [if_pos h1, if_pos h1, values_add]
    simp [Configuration.values]
  · rw [if_neg h1, if_neg h1]
    by_cases h2 : config_.client_id ≠ "" ∧ config_.client_secret ≠ ""
    · rw [if_pos h2, if_pos h2, values_add]
      simp [Configuration.values]
    · rw [if_neg h2, if_neg h2]
      simp [Configuration.values]

/-- C1: the request built by `get` carries the Authorization header chosen from the
refreshed config alone: exactly `bearer <token>` when the access token is non-empty;
otherwise exactly `basic <base64(id:secret)>` when client id and client secret are both
non-empty; otherwise no Authorization header. The three cases exclude each other and
cover every config. -/
theorem C1_authorization_header (env : Env) (sys : Sys) (p : Priv) (path : List String)
    (parameters : List (String × String)) :
    (get env sys p path parameters).1.config_ = update_config sys p.config_ ∧
    (get env sys p path parameters).2.values "Authorization" =
      (if (update_config sys p.config_).access_token ≠ "" then
        ["bearer " ++ (update_config sys p.config_).access_token]
      else if (update_config sys p.config_).client_id ≠ "" ∧
          (update_config sys p.config_).client_secret ≠ "" then
        ["basic " ++ env.base64_encode
          ((update_config sys p.config_).client_id ++ ":" ++
            (update_config sys p.config_).client_secret)]
      else []) :=
  ⟨rfl, build_configuration_authorization env (update_config sys p.config_) path parameters⟩

/-! ## Cancellation -/

theorem step_cancelled (env : Env) (p : Priv) (sys : Sys) (op : ClientOp) :
    (p.step env sys op).cancelled_ = true ↔ p.cancelled_ = true ∨ op = ClientOp.cancel := by
  cases op <;>
    simp [Priv.step, Client.videos, Client.channels, Client.channels_videos, Client.feed,
      Client.cancel, Client.authenticated, async_get, get]

theorem run_cancelled (env : Env) (history : List (Sys × ClientOp)) (p : Priv) :
    (Priv.run env p history).cancelled_ = true ↔
      p.cancelled_ = true ∨ ClientOp.cancel ∈ history.map Prod.snd := by
  induction history generalizing p with
  | nil => simp [Priv.run]
  | cons call rest ih =>
    obtain ⟨sys, op⟩ := call
    rw [Priv.run, ih, step_cancelled, List.map_cons, List.mem_cons, or_assoc]
    constructor
    · rintro (h | h | h)
      · exact Or.inl h
      · exact Or.inr (Or.inl h.symm)
      · exact Or.inr (Or.inr h)
    · rintro (h | h | h)
      · exact Or.inl h
      · exact Or.inr (Or.inl h.symm)
      · exact Or.inr (Or.inr h)

theorem new_run_cancelled (env : Env) (config_ : Config) (history : List (Sys × ClientOp)) :
    (Priv.run env (Priv.new config_) history).cancelled_ = true ↔
      ClientOp.cancel ∈ history.map Prod.snd := by
  rw [run_cancelled]
  simp [Priv.new]

/-- C6: cancellation is permanent. After any history of client operations on a new
client, a progress tick signals `abort_operation` exactly when `cancel()` occurs in the
history and `continue_operation` exactly when it does not; and whatever operations
follow a history that left the flag set, the flag is still set. -/
theorem C6_cancel_is_permanent (env : Env) (config_ : Config)
    (history later : List (Sys × ClientOp)) :
    (progress_report (Priv.run env (Priv.new config_) history) = Next.abort_operation ↔
      ClientOp.cancel ∈ history.map Prod.snd) ∧
    (progress_report (Priv.run env (Priv.new config_) history) = Next.continue_operation ↔
      ClientOp.cancel ∉ history.map Prod.snd) ∧
    ((Priv.run env (Priv.new config_) history).cancelled_ = true →
      (Priv.run env (Priv.new config_) (history ++ later)).cancelled_ = true) := by
  have h := new_run_cancelled env config_ history
  refine ⟨?_, ?_, ?_⟩
  · rw [← h]
    unfold progress_report
    split_ifs with hc <;> simp [hc]
  · rw [← h]
    unfold progress_report
    split_ifs with hc <;> simp [hc]
  · intro hset
    rw [new_run_cancelled, List.map_append]
    exact List.mem_append_left _ (h.mp hset)

/-! ## Config refresh -/

theorem scan_statuses_find (statuses : List ServiceStatus) (config_ : Config) :
    scan_statuses statuses config_ =
      match statuses.find? (fun s => s.service_authenticated) with
      | some s =>
        { config_ with
          authenticated := true
          access_token := s.access_token
          client_id := s.client_id
          client_secret := s.client_secret }
      | none => config_ := by
  induction statuses with
  | nil => rfl
  | cons s rest ih =>
    by_cases h : s.service_authenticated = true
    · simp [scan_statuses, List.find?, h]
    · simp only [Bool.not_eq_true] at h
      simp [scan_statuses, List.find?, h, ih]

/-- When the provider reports an authenticated service, the refreshed config is
authenticated and carries the credentials of the first such service. -/
theorem update_config_authenticated (sys : Sys) (config_ : Config) (s : ServiceStatus)
    (henv : sys.getenv "YOUTUBE_SCOPE_IGNORE_ACCOUNTS" = none)
    (hs : sys.service_statuses.find? (fun s => s.service_authenticated) = some s) :
    (update_config sys config_).authenticated = true ∧
    (update_config sys config_).access_token = s.access_token ∧
    (update_config sys config_).client_id = s.client_id ∧
    (update_config sys config_).client_secret = s.client_secret := by
  simp [update_config, henv, scan_statuses_find, hs]

/-- When no service is authenticated and the flag was clear before, the refresh
clears the credentials. -/
theorem update_config_unauthenticated (sys : Sys) (config_ : Config)
    (henv : sys.getenv "YOUTUBE_SCOPE_IGNORE_ACCOUNTS" = none)
    (hs : sys.service_statuses.find? (fun s => s.service_authenticated) = none)
    (hprev : config_.authenticated = false) :
    (update_config sys config_).authenticated = false ∧
    (update_config sys config_).access_token = "" ∧
    (update_config sys config_).client_id = "" ∧
    (update_config sys config_).client_secret = "" := by
  cases h : sys.getenv "YOUTUBE_SCOPE_APIROOT" <;>
    simp [update_config, henv, scan_statuses_find, hs, hprev, h]

/-- When no service is authenticated but the flag was set before, the refresh keeps
the flag and the old credentials. -/
theorem update_config_stale (sys : Sys) (config_ : Config)
    (henv : sys.getenv "YOUTUBE_SCOPE_IGNORE_ACCOUNTS" = none)
    (hs : sys.service_statuses.find? (fun s => s.service_authenticated) = none)
    (hprev : config_.authenticated = true) :
    (update_config sys config_).authenticated = true ∧
    (update_config sys config_).access_token = config_.access_token ∧
    (update_config sys config_).client_id = config_.client_id ∧
    (update_config sys config_).client_secret = config_.client_secret := by
  cases h : sys.getenv "YOUTUBE_SCOPE_APIROOT" <;>
    simp [update_config, henv, scan_statuses_find, hs, hprev, h]

/-- C3: a refresh that finds no authenticated service does not depend on the statuses
alone. A client that was refreshed once while a service was authenticated, and is
refreshed again when the provider reports no service at all, still has
`authenticated = true` and the old access token, client id and client secret, and
`authenticated()` returns true. -/
theorem C3_refresh_keeps_stale_login :
    (plain_sys []).getenv "YOUTUBE_SCOPE_IGNORE_ACCOUNTS" = none ∧
    (plain_sys []).service_statuses.any (fun s => s.service_authenticated) = false ∧
    update_config (plain_sys []) (update_config (plain_sys [logged_in]) fresh_config) =
      { fresh_config with
        authenticated := true, access_token := "tok", client_id := "id",
        client_secret := "secret" } ∧
    (Client.authenticated (plain_sys [])
      (Client.authenticated (plain_sys [logged_in]) (Priv.new fresh_config)).1).2 = true := by
  decide

/-! ## List extraction -/

theorem get_list_null {T : Type} (mk : Json → T) : get_list mk Json.null = some [] := by
  simp [get_list, Json.member, Json.size, get_list_loop]

theorem on_response_empty_body {T : Type} (env : Env) (func : Json → Option T)
    (response : Response) (hstatus : response.status = Status.ok)
    (hbody : response.body = "") :
    on_response env func response =
      match func (env.parse "") with
      | some v => Resolution.value v
      | none => Resolution.unset := by
  simp [on_response, hbody, hstatus]

/-- C4: for a response with ok status and an empty body the handler does not consult
the decompressor, parses the empty text, which the reader leaves as the null document,
applies the extraction function to it and sets the value; for `videos`, `channels`,
`channels_videos` and `feed` the value is the empty list. -/
theorem C4_ok_empty_body (env : Env) (response : Response)
    (hstatus : response.status = Status.ok) (hbody : response.body = "")
    (hparse : env.parse "" = Json.null) :
    (∀ (T : Type) (func : Json → Option T) (gunzip : String → Except Int String),
      on_response { env with gunzip := gunzip } func response = on_response env func response) ∧
    (∀ (T : Type) (func : Json → Option T) (v : T), func Json.null = some v →
      on_response env func response = Resolution.value v) ∧
    (∀ (V C : Type) (mkV : Json → V) (mkC : Json → C) (sys : Sys) (p : Priv)
        (query channel : String),
      (Client.videos mkV env sys p query).2.resolve env (Completion.response response) =
        Resolution.value [] ∧
      (Client.channels mkC env sys p).2.resolve env (Completion.response response) =
        Resolution.value [] ∧
      (Client.channels_videos mkV env sys p channel).2.resolve env
        (Completion.response response) = Resolution.value [] ∧
      (Client.feed mkV env sys p).2.resolve env (Completion.response response) =
        Resolution.value []) := by
  refine ⟨?_, ?_, ?_⟩
  · intro T func gunzip
    rw [on_response_empty_body env func response hstatus hbody,
      on_response_empty_body _ func response hstatus hbody]
  · intro T func v hv
    rw [on_response_empty_body env func response hstatus hbody, hparse, hv]
  · intro V C mkV mkC sys p query channel
    simp only [Client.videos, Client.channels, Client.channels_videos, Client.feed, async_get,
      Pending.resolve]
    simp [on_response_empty_body env _ response hstatus hbody, hparse, get_list_null]

/-- C4 at a concrete input: status 200, empty body. -/
theorem C4_ok_empty_body_witness :
    (Client.channels id stub_env (plain_sys []) (Priv.new fresh_config)).2.resolve stub_env
        (Completion.response { status := 200, body := "" }) = Resolution.value [] ∧
    (Client.feed id stub_env (plain_sys []) (Priv.new fresh_config)).2.resolve stub_env
        (Completion.response { status := 200, body := "" }) = Resolution.value [] :=
  have h := (C4_ok_empty_body stub_env { status := 200, body := "" } rfl rfl rfl).2.2
    Json Json id id (plain_sys []) (Priv.new fresh_config) "" ""
  ⟨h.2.1, h.2.2.2⟩

/-- C2, as stated, fails: a response with status 400 whose body is the plain JSON text
of an error object with message bad is not a gzip stream, so the handler stores the
decompression error and returns before looking at the status; the future does not
hold a `domain_error`. -/
theorem C2_counterexample_body_not_gzip :
    ({ status := 400, body := "\x7b\"error\":\"bad\"\x7d" } : Response).status ≠ Status.ok ∧
    (on_response stub_env (get_list id)
        { status := 400, body := "\x7b\"error\":\"bad\"\x7d" } : Resolution (List Json)) =
      Resolution.exception (Exn.gzip_error 4) ∧
    ∀ what : String,
      (on_response stub_env (get_list id)
        { status := 400, body := "\x7b\"error\":\"bad\"\x7d" } : Resolution (List Json)) ≠
      Resolution.exception (Exn.domain_error what) := by
  refine ⟨by decide, rfl, ?_⟩
  intro what h
  have h2 : (on_response stub_env (get_list id)
      { status := 400, body := "\x7b\"error\":\"bad\"\x7d" } : Resolution (List Json)) =
      Resolution.exception (Exn.gzip_error 4) := rfl
  rw [h2] at h
  injection h with h3
  exact Exn.noConfusion h3

theorem on_response_not_ok {T : Type} (env : Env) (func : Json → Option T)
    (response : Response) (text what : String)
    (hstatus : response.status ≠ Status.ok)
    (hbody : (response.body = "" ∧ text = "") ∨
      (response.body ≠ "" ∧ env.gunzip response.body = Except.ok text))
    (herror : (env.parse text).member "error" = some (Json.str what) ∨
      ((env.parse text).member "error" = some Json.null ∧ what = "")) :
    on_response env func response = Resolution.exception (Exn.domain_error what) := by
  unfold on_response
  rcases hbody with ⟨hb, ht⟩ | ⟨hb, hg⟩
  · subst ht
    rcases herror with he | ⟨he, hw⟩
    · simp [hb, hstatus, he, Json.asString]
    · simp [hb, hstatus, he, hw, Json.asString]
  · rcases herror with he | ⟨he, hw⟩
    · simp [hb, hg, hstatus, he, Json.asString]
    · simp [hb, hg, hstatus, he, hw, Json.asString]

theorem on_response_gzip_error {T : Type} (env : Env) (func : Json → Option T)
    (response : Response) (e : Int) (hbody : response.body ≠ "")
    (hgunzip : env.gunzip response.body = Except.error e) :
    on_response env func response = Resolution.exception (Exn.gzip_error e) := by
  simp [on_response, hbody, hgunzip]

theorem on_response_not_ok_ignores_func {T : Type} (env : Env) (func other : Json → Option T)
    (response : Response) (hstatus : response.status ≠ Status.ok) :
    on_response env other response = on_response env func response := by
  unfold on_response
  by_cases hb : response.body ≠ ""
  · cases hg : env.gunzip response.body <;> simp [hb, hg, hstatus]
  · simp [hb, hstatus]

/-- C2, amended. For a response whose status is not ok and whose body is empty or
decompresses to a text, when the decoded document has a string as its `error` member
the handler stores a `domain_error` carrying that string, and when the member is absent
or null (the document being null or an object) it stores a `domain_error` carrying the
empty string. For a status that is not ok the extraction function has no influence on
the outcome. For a non-empty body that does not decompress the handler stores the
decompression error, whatever the status. -/
theorem C2_not_ok_is_api_error {T : Type} (env : Env) (func : Json → Option T)
    (response : Response) :
    (∀ text what : String,
      response.status ≠ Status.ok →
      ((response.body = "" ∧ text = "") ∨
        (response.body ≠ "" ∧ env.gunzip response.body = Except.ok text)) →
      ((env.parse text).member "error" = some (Json.str what) ∨
        ((env.parse text).member "error" = some Json.null ∧ what = "")) →
      on_response env func response = Resolution.exception (Exn.domain_error what)) ∧
    (response.status ≠ Status.ok →
      ∀ other : Json → Option T,
        on_response env other response = on_response env func response) ∧
    (∀ e : Int,
      response.body ≠ "" →
      env.gunzip response.body = Except.error e →
      on_response env func response = Resolution.exception (Exn.gzip_error e)) :=
  ⟨fun text what hstatus hbody herror =>
      on_response_not_ok env func response text what hstatus hbody herror,
    fun hstatus other => on_response_not_ok_ignores_func env func other response hstatus,
    fun e hbody hgunzip => on_response_gzip_error env func response e hbody hgunzip⟩

/-- C2, amended, at concrete inputs: status 400 with a gzip stream that holds an error
object with message bad gives the ApiError with that message; status 200 with a body
that is not a gzip stream gives the decompression error. -/
theorem C2_not_ok_is_api_error_witness :
    (on_response stub_env (get_list id)
        { status := 400, body := "\x1f\u008b\x7b\"error\":\"bad\"\x7d" } :
        Resolution (List Json)) =
      Resolution.exception (Exn.domain_error "bad") ∧
    (on_response stub_env (get_list id) { status := 200, body := "plain" } :
        Resolution (List Json)) =
      Resolution.exception (Exn.gzip_error 4) :=
  ⟨(C2_not_ok_is_api_error stub_env (get_list id)
      { status := 400, body := "\x1f\u008b\x7b\"error\":\"bad\"\x7d" }).1
      "\x7b\"error\":\"bad\"\x7d" "bad" (by decide) (Or.inr ⟨by decide, rfl⟩) (Or.inl rfl),
   (C2_not_ok_is_api_error stub_env (get_list id) { status := 200, body := "plain" }).2.2
      4 (by decide) rfl⟩

/-- C1 at concrete inputs: a logged-in provider gives a bearer header, and no provider
status gives no Authorization header. -/
theorem C1_authorization_header_witness :
    (get stub_env (plain_sys [logged_in]) (Priv.new fresh_config) ["videos"] []).2.values
        "Authorization" = ["bearer tok"] :=
  (C1_authorization_header stub_env (plain_sys [logged_in]) (Priv.new fresh_config)
    ["videos"] []).2.trans (by decide)

/-- C6 at a concrete history: a search, a cancel, a feed request, then a tick. -/
theorem C6_cancel_is_permanent_witness :
    progress_report (Priv.run stub_env (Priv.new fresh_config)
      [(plain_sys [], ClientOp.videos "cats"), (plain_sys [], ClientOp.cancel),
       (plain_sys [logged_in], ClientOp.feed)]) = Next.abort_operation :=
  (C6_cancel_is_permanent stub_env fresh_config
    [(plain_sys [], ClientOp.videos "cats"), (plain_sys [], ClientOp.cancel),
     (plain_sys [logged_in], ClientOp.feed)] []).1.mpr (by decide)

/-! ## Query orchestration -/

theorem login_nag_shown_append (xs ys : List Event) :
    login_nag_shown (xs ++ ys) = (login_nag_shown xs || login_nag_shown ys) := by
  induction xs with
  | nil => simp [login_nag_shown]
  | cons x rest ih => cases x <;> simp [login_nag_shown, ih, Bool.or_assoc]

theorem registered_departments_append (xs ys : List Event) :
    registered_departments (xs ++ ys) =
      registered_departments xs ++ registered_departments ys := by
  induction xs with
  | nil => rfl
  | cons x rest ih => cases x <;> simp [registered_departments, ih]

theorem login_nag_shown_push_videos (push_ok : Nat → CategorisedResult → Bool) (n : Nat)
    (videos : List Video) : login_nag_shown (push_videos push_ok n videos) = false := by
  induction videos generalizing n with
  | nil => rfl
  | cons v rest ih =>
    have hcat : ¬ ("vimeo" = "vimeo_login_nag") := by decide
    simp only [push_videos, login_nag_shown, hcat, decide_False, Bool.false_or]
    split_ifs
    · exact ih (n + 1)
    · rfl

theorem registered_departments_push_videos (push_ok : Nat → CategorisedResult → Bool)
    (n : Nat) (videos : List Video) :
    registered_departments (push_videos push_ok n videos) = [] := by
  induction videos generalizing n with
  | nil => rfl
  | cons v rest ih =>
    simp only [push_videos, registered_departments]
    split_ifs
    · exact ih (n + 1)
    · rfl

theorem failure_push_videos (client_ : QueryClient) (push_ok : Nat → CategorisedResult → Bool)
    (n : Nat) (videos : List Video) (ev : Event) (hev : ev ∈ push_videos push_ok n videos) :
    client_.failure ev = none := by
  induction videos generalizing n with
  | nil => simp [push_videos] at hev
  | cons v rest ih =>
    simp only [push_videos, List.mem_cons] at hev
    rcases hev with h | h
    · subst h
      rfl
    · split_ifs at h
      · exact ih (n + 1) h
      · simp at h

theorem registered_departments_add_login_nag (getenv : String → Option String) :
    registered_departments (add_login_nag getenv) = [] := by
  unfold add_login_nag
  split_ifs <;> rfl

theorem failure_add_login_nag (client_ : QueryClient) (getenv : String → Option String)
    (ev : Event) (hev : ev ∈ add_login_nag getenv) : client_.failure ev = none := by
  unfold add_login_nag at hev
  split_ifs at hev
  · simp at hev
  · simp only [List.mem_cons, List.mem_singleton, List.not_mem_nil, or_false] at hev
    rcases hev with h | h | h <;> subst h <;> rfl

theorem login_nag_shown_add_login_nag (getenv : String → Option String) :
    login_nag_shown (add_login_nag getenv) =
      !(getenv "VIMEO_SCOPE_IGNORE_ACCOUNTS").isSome := by
  unfold add_login_nag
  split_ifs with h
  · simp [login_nag_shown, h]
  · simp only [Bool.not_eq_true] at h
    simp [login_nag_shown, h]

theorem channel_departments_eq (channels : List Channel) :
    channel_departments channels =
      Department.mk "" "My Feed"
        (channels.map (fun channel => Department.mk channel.id channel.name [])) := by
  have h : ∀ (cs : List Channel) (subs : List Department),
      cs.foldl
        (fun all_depts channel =>
          all_depts.add_subdepartment (Department.create channel.id channel.name))
        (Department.mk "" "My Feed" subs) =
      Department.mk "" "My Feed"
        (subs ++ cs.map (fun channel => Department.mk channel.id channel.name [])) := by
    intro cs
    induction cs with
    | nil => intro subs; simp
    | cons c rest ih =>
      intro subs
      rw [List.foldl_cons]
      have hstep : (Department.mk "" "My Feed" subs).add_subdepartment
          (Department.create c.id c.name) =
          Department.mk "" "My Feed" (subs ++ [Department.mk c.id c.name []]) := rfl
      rw [hstep, ih]
      simp
  simpa [channel_departments, Department.create] using h channels []

theorem run_search (getenv : String → Option String) (client_ : QueryClient)
    (push_ok : Nat → CategorisedResult → Bool) (query : CannedQuery)
    (hsearch : trim_copy query.query_string ≠ "") :
    Query.run getenv client_ push_ok query =
      match client_.videos (trim_copy query.query_string) with
      | Except.error e => unwind [Event.call_videos (trim_copy query.query_string)] e
      | Except.ok vs => emit push_ok [Event.call_videos (trim_copy query.query_string)] vs := by
  simp only [Query.run, if_neg hsearch]

theorem run_browse_error (getenv : String → Option String) (client_ : QueryClient)
    (push_ok : Nat → CategorisedResult → Bool) (query : CannedQuery) (e : Exn)
    (hbrowse : trim_copy query.query_string = "") (hch : client_.channels = Except.error e) :
    Query.run getenv client_ push_ok query = unwind [Event.call_channels] e := by
  simp only [Query.run, if_pos hbrowse, hch]

theorem run_browse (getenv : String → Option String) (client_ : QueryClient)
    (push_ok : Nat → CategorisedResult → Bool) (query : CannedQuery) (channels : List Channel)
    (hbrowse : trim_copy query.query_string = "")
    (hch : client_.channels = Except.ok channels) :
    ∃ outcome : Except Exn (List Video),
      Query.run getenv client_ push_ok query =
        browse_finish getenv push_ok (spec_departments channels query.department_id)
          (!client_.authenticated && !starts_with query.department_id "aggregated:")
          (spec_video_source query.department_id client_.authenticated) outcome ∧
      client_.failure (spec_video_source query.department_id client_.authenticated) =
        outcome_failure outcome := by
  by_cases hagg : starts_with query.department_id "aggregated:" = true
  · have hs : spec_video_source query.department_id client_.authenticated =
        Event.call_channels_videos "staffpicks" := by simp [spec_video_source, hagg]
    refine ⟨client_.channels_videos "staffpicks", ?_, ?_⟩
    · rw [hs]
      simp [Query.run, hbrowse, hch, channel_departments_eq, spec_departments, hagg,
        Department.add_subdepartment, Department.create]
    · rw [hs]
      rfl
  · simp only [Bool.not_eq_true] at hagg
    by_cases hdep : query.department_id ≠ ""
    · have hs : spec_video_source query.department_id client_.authenticated =
          Event.call_channels_videos query.department_id := by
        simp [spec_video_source, hagg, hdep]
      refine ⟨client_.channels_videos query.department_id, ?_, ?_⟩
      · rw [hs]
        simp [Query.run, hbrowse, hch, channel_departments_eq, spec_departments, hagg, hdep]
      · rw [hs]
        rfl
    · by_cases hauth : client_.authenticated = true
      · have hs : spec_video_source query.department_id client_.authenticated =
            Event.call_feed := by
          simp [spec_video_source, hagg, hdep, hauth]
        refine ⟨client_.feed, ?_, ?_⟩
        · rw [hs]
          simp [Query.run, hbrowse, hch, channel_departments_eq, spec_departments, hagg, hdep,
            hauth]
        · rw [hs]
          rfl
      · simp only [Bool.not_eq_true] at hauth
        have hs : spec_video_source query.department_id client_.authenticated =
            Event.call_channels_videos "staffpicks" := by
          simp [spec_video_source, hagg, hdep, hauth]
        refine ⟨client_.channels_videos "staffpicks", ?_, ?_⟩
        · rw [hs]
          simp [Query.run, hbrowse, hch, channel_departments_eq, spec_departments, hagg, hdep,
            hauth]
        · rw [hs]
          rfl

theorem client_calls_source (department_id : String) (authenticated : Bool)
    (rest : List Event) :
    client_calls (spec_video_source department_id authenticated :: rest) =
      spec_video_source department_id authenticated :: client_calls rest := by
  unfold spec_video_source
  split_ifs <;> rfl

theorem login_nag_shown_source (department_id : String) (authenticated : Bool)
    (rest : List Event) :
    login_nag_shown (spec_video_source department_id authenticated :: rest) =
      login_nag_shown rest := by
  unfold spec_video_source
  split_ifs <;> rfl

theorem registered_departments_source (department_id : String) (authenticated : Bool)
    (rest : List Event) :
    registered_departments (spec_video_source department_id authenticated :: rest) =
      registered_departments rest := by
  unfold spec_video_source
  split_ifs <;> rfl

/-- C7, as stated, fails: when `channels()` fails with a transport error, `run` does
not return normally; the `net::Error` leaves `run`. The same holds for a decompression
error raised by `videos()`. -/
theorem C7_counterexample_transport_error :
    (Query.run no_env (failing_client (Exn.net_error "connection refused")) accept_all
        { query_string := "", department_id := "" }).propagated =
      some (Exn.net_error "connection refused") ∧
    (Query.run no_env (failing_client (Exn.gzip_error 4)) accept_all
        { query_string := "cats", department_id := "" }).propagated =
      some (Exn.gzip_error 4) := by
  decide

/-- C7, amended: when a client call made by `run` fails, `run` stops at that call, and
nothing has been sent to the reply, since every event up to there is a client call. An
ApiError (`domain_error`) is swallowed and `run` returns normally; a `net::Error`
(TransportError, CancellationAbort) or a `gzip_error` (DecompressionError) leaves `run`. -/
theorem C7_only_domain_error_is_swallowed (getenv : String → Option String)
    (client_ : QueryClient) (push_ok : Nat → CategorisedResult → Bool) (query : CannedQuery)
    (call : Event) (e : Exn)
    (hcall : call ∈ (Query.run getenv client_ push_ok query).events)
    (hfail : client_.failure call = some e) :
    (Query.run getenv client_ push_ok query).thrown = some e ∧
    (∃ before, (Query.run getenv client_ push_ok query).events = before ++ [call]) ∧
    client_calls (Query.run getenv client_ push_ok query).events =
      (Query.run getenv client_ push_ok query).events ∧
    (Query.run getenv client_ push_ok query).propagated =
      catch_domain_error e := by
  by_cases hq : trim_copy query.query_string = ""
  · cases hch : client_.channels with
    | error e1 =>
      rw [run_browse_error getenv client_ push_ok query e1 hq hch] at hcall ⊢
      simp only [unwind] at hcall ⊢
      simp only [List.mem_singleton] at hcall
      subst hcall
      have he : e1 = e := by simpa [QueryClient.failure, hch] using hfail
      subst he
      exact ⟨rfl, ⟨[], rfl⟩, rfl, rfl⟩
    | ok channels =>
      obtain ⟨outcome, hrun, hout⟩ := run_browse getenv client_ push_ok query channels hq hch
      rw [hrun] at hcall ⊢
      have hch_ok : client_.failure Event.call_channels = none := by
        simp [QueryClient.failure, hch]
      cases outcome with
      | error e1 =>
        simp only [browse_finish, unwind, List.mem_cons, List.mem_singleton,
          List.not_mem_nil, or_false] at hcall ⊢
        rcases hcall with h | h
        · rw [h, hch_ok] at hfail
          cases hfail
        · subst h
          have he : e1 = e := by
            rw [hout] at hfail
            simpa [outcome_failure] using hfail
          subst he
          refine ⟨rfl, ⟨[Event.call_channels], rfl⟩, ?_, rfl⟩
          simp [client_calls, client_calls_source]
      | ok vs =>
        exfalso
        have hsrc : client_.failure
            (spec_video_source query.department_id client_.authenticated) = none := by
          rw [hout]
          rfl
        simp only [browse_finish, emit, List.mem_append, List.mem_cons, List.mem_singleton,
          List.not_mem_nil, or_false] at hcall
        rcases hcall with (((h | h | h) | h) | h) | h
        · rw [h, hch_ok] at hfail
          cases hfail
        · rw [h, hsrc] at hfail
          cases hfail
        · rw [h] at hfail
          cases hfail
        · have hnone : client_.failure call = none := by
            split_ifs at h
            · exact failure_add_login_nag client_ getenv call h
            · simp at h
          rw [hnone] at hfail
          cases hfail
        · rw [h] at hfail
          cases hfail
        · rw [failure_push_videos client_ push_ok 0 vs call h] at hfail
          cases hfail
  · rw [run_search getenv client_ push_ok query hq] at hcall ⊢
    cases hv : client_.videos (trim_copy query.query_string) with
    | error e1 =>
      rw [hv] at hcall
      simp only [unwind, List.mem_singleton] at hcall ⊢
      subst hcall
      have he : e1 = e := by simpa [QueryClient.failure, hv] using hfail
      subst he
      exact ⟨rfl, ⟨[], rfl⟩, rfl, rfl⟩
    | ok vs =>
      exfalso
      rw [hv] at hcall
      simp only [emit, List.mem_append, List.mem_cons, List.mem_singleton,
        List.not_mem_nil, or_false] at hcall
      rcases hcall with (h | h) | h
      · rw [h] at hfail
        simp [QueryClient.failure, hv] at hfail
      · rw [h] at hfail
        cases hfail
      · rw [failure_push_videos client_ push_ok 0 vs call h] at hfail
        cases hfail

/-- C7, amended, at concrete inputs: an ApiError from `channels()` is swallowed. -/
theorem C7_only_domain_error_is_swallowed_witness :
    (Query.run no_env (failing_client (Exn.domain_error "bad")) accept_all
        { query_string := "", department_id := "" }).thrown = some (Exn.domain_error "bad") ∧
    (Query.run no_env (failing_client (Exn.domain_error "bad")) accept_all
        { query_string := "", department_id := "" }).propagated = none :=
  have h := C7_only_domain_error_is_swallowed no_env (failing_client (Exn.domain_error "bad"))
    accept_all { query_string := "", department_id := "" } Event.call_channels
    (Exn.domain_error "bad") (List.Mem.head _) rfl
  ⟨h.1, h.2.2.2⟩

theorem login_nag_shown_search (getenv : String → Option String) (client_ : QueryClient)
    (push_ok : Nat → CategorisedResult → Bool) (query : CannedQuery)
    (hsearch : trim_copy query.query_string ≠ "") :
    login_nag_shown (Query.run getenv client_ push_ok query).events = false := by
  rw [run_search getenv client_ push_ok query hsearch]
  cases client_.videos (trim_copy query.query_string) with
  | error e => simp [unwind, login_nag_shown]
  | ok vs => simp [emit, login_nag_shown_append, login_nag_shown_push_videos, login_nag_shown]

theorem login_nag_shown_browse_finish (getenv : String → Option String)
    (push_ok : Nat → CategorisedResult → Bool) (all_depts : Department) (incl : Bool)
    (department_id : String) (authenticated : Bool) (outcome : Except Exn (List Video)) :
    login_nag_shown
        (browse_finish getenv push_ok all_depts incl
          (spec_video_source department_id authenticated) outcome).events =
      match outcome with
      | Except.error _ => false
      | Except.ok _ => incl && !(getenv "VIMEO_SCOPE_IGNORE_ACCOUNTS").isSome := by
  cases outcome with
  | error e => simp [browse_finish, unwind, login_nag_shown, login_nag_shown_source]
  | ok vs =>
    cases incl <;>
      simp [browse_finish, emit, login_nag_shown_append, login_nag_shown_push_videos,
        login_nag_shown, login_nag_shown_source, login_nag_shown_add_login_nag]

/-- C9, as stated, fails: a text search by an unauthenticated client outside an
`aggregated:` department shows no login nag. -/
theorem C9_counterexample_text_search :
    (stub_client false).authenticated = false ∧
    starts_with "" "aggregated:" = false ∧
    (Query.run no_env (stub_client false) accept_all
      { query_string := "cats", department_id := "" }).thrown = none ∧
    login_nag_shown (Query.run no_env (stub_client false) accept_all
      { query_string := "cats", department_id := "" }).events = false := by
  decide

/-- C9, amended: the login nag is never shown in a text search, never when the client
is authenticated and never for an `aggregated:` department; in a browse evaluation that
completes without a failed client call, with `VIMEO_SCOPE_IGNORE_ACCOUNTS` unset, it is
shown exactly when the client is not authenticated and the department id does not
start with `aggregated:`. -/
theorem C9_login_nag (getenv : String → Option String) (client_ : QueryClient)
    (push_ok : Nat → CategorisedResult → Bool) (query : CannedQuery) :
    (trim_copy query.query_string ≠ "" →
      login_nag_shown (Query.run getenv client_ push_ok query).events = false) ∧
    (client_.authenticated = true →
      login_nag_shown (Query.run getenv client_ push_ok query).events = false) ∧
    (starts_with query.department_id "aggregated:" = true →
      login_nag_shown (Query.run getenv client_ push_ok query).events = false) ∧
    (trim_copy query.query_string = "" →
      (Query.run getenv client_ push_ok query).thrown = none →
      getenv "VIMEO_SCOPE_IGNORE_ACCOUNTS" = none →
      (login_nag_shown (Query.run getenv client_ push_ok query).events = true ↔
        client_.authenticated = false ∧
          starts_with query.department_id "aggregated:" = false)) := by
  have hbrowse : trim_copy query.query_string = "" →
      login_nag_shown (Query.run getenv client_ push_ok query).events = true →
      client_.authenticated = false ∧
        starts_with query.department_id "aggregated:" = false := by
    intro hq hshown
    cases hch : client_.channels with
    | error e =>
      rw [run_browse_error getenv client_ push_ok query e hq hch] at hshown
      simp [unwind, login_nag_shown] at hshown
    | ok channels =>
      obtain ⟨outcome, hrun, -⟩ := run_browse getenv client_ push_ok query channels hq hch
      rw [hrun, login_nag_shown_browse_finish] at hshown
      cases outcome with
      | error e => simp at hshown
      | ok vs =>
        simp only [Bool.and_eq_true, Bool.not_eq_true'] at hshown
        exact hshown.1
  have hnever : (client_.authenticated = true ∨
      starts_with query.department_id "aggregated:" = true) →
      login_nag_shown (Query.run getenv client_ push_ok query).events = false := by
    intro h
    by_cases hq : trim_copy query.query_string = ""
    · cases hs : login_nag_shown (Query.run getenv client_ push_ok query).events with
      | false => rfl
      | true =>
        have h2 := hbrowse hq hs
        rcases h with h | h
        · rw [h2.1] at h
          cases h
        · rw [h2.2] at h
          cases h
    · exact login_nag_shown_search getenv client_ push_ok query hq
  refine ⟨login_nag_shown_search getenv client_ push_ok query,
    fun h => hnever (Or.inl h), fun h => hnever (Or.inr h), ?_⟩
  intro hq hdone henv
  refine ⟨hbrowse hq, ?_⟩
  rintro ⟨hauth, hagg⟩
  cases hch : client_.channels with
  | error e =>
    rw [run_browse_error getenv client_ push_ok query e hq hch] at hdone
    simp [unwind] at hdone
  | ok channels =>
    obtain ⟨outcome, hrun, -⟩ := run_browse getenv client_ push_ok query channels hq hch
    rw [hrun] at hdone ⊢
    rw [login_nag_shown_browse_finish]
    cases outcome with
    | error e => simp [browse_finish, unwind] at hdone
    | ok vs => simp [hauth, hagg, henv]

/-- C9, amended, at a concrete input: browsing the root department unauthenticated
shows the nag. -/
theorem C9_login_nag_witness :
    login_nag_shown (Query.run no_env (stub_client false) accept_all
      { query_string := " ", department_id := "" }).events = true :=
  ((C9_login_nag no_env (stub_client false) accept_all
    { query_string := " ", department_id := "" }).2.2.2 (by decide) (by decide) rfl).mpr
    ⟨rfl, by decide⟩

/-- C10: in a browse evaluation that completes without a failed client call, the
department tree registered with the reply is the root with the empty id and the label
`My Feed`, one sub-department per channel returned by `channels()`, in order, with the
id and name of the channel, followed by a dummy with the department id and a single
blank as its name exactly when the department id starts with `aggregated:`. -/
theorem C10_department_tree (getenv : String → Option String) (client_ : QueryClient)
    (push_ok : Nat → CategorisedResult → Bool) (query : CannedQuery)
    (channels : List Channel)
    (hbrowse : trim_copy query.query_string = "")
    (hch : client_.channels = Except.ok channels)
    (hdone : (Query.run getenv client_ push_ok query).thrown = none) :
    registered_departments (Query.run getenv client_ push_ok query).events =
      [Department.mk "" "My Feed"
        (channels.map (fun channel => Department.mk channel.id channel.name []) ++
          (if starts_with query.department_id "aggregated:" then
            [Department.mk query.department_id " " []]
          else []))] := by
  obtain ⟨outcome, hrun, -⟩ := run_browse getenv client_ push_ok query channels hbrowse hch
  rw [hrun] at hdone ⊢
  generalize (!client_.authenticated && !starts_with query.department_id "aggregated:") = incl
    at hdone ⊢
  cases outcome with
  | error e => simp [browse_finish, unwind] at hdone
  | ok vs =>
    cases incl <;>
      simp [browse_finish, emit, registered_departments_append,
        registered_departments_push_videos, registered_departments,
        registered_departments_source, registered_departments_add_login_nag,
        spec_departments]

/-- C10 at a concrete input: department `aggregated:foo`, unauthenticated. -/
theorem C10_department_tree_witness :
    registered_departments (Query.run no_env (stub_client false) accept_all
      { query_string := "", department_id := "aggregated:foo" }).events =
      [Department.mk "" "My Feed"
        [Department.mk "c1" "Music" [], Department.mk "c2" "Sports" [],
         Department.mk "aggregated:foo" " " []]] :=
  C10_department_tree no_env (stub_client false) accept_all
    { query_string := "", department_id := "aggregated:foo" }
    [{ id := "c1", name := "Music" }, { id := "c2", name := "Sports" }] (by decide) rfl
    (by decide)

end Vimeo
